import Mathlib

/-!
# Thermal-FIST: `HRGEventGenerator/EventGeneratorBase.h`

A shallow embedding of the event-generator base class.  The C++ `double` is a
type parameter `α` (instantiated with `ℝ` for the exact-arithmetic statements
about the energy setters and with `ℚ` for evaluation), `int` is `Int`, a
`std::vector` is a `List`, and the `static` data members live in a separate
record that every operation threads explicitly.
-/

namespace thermalfist

/-! ## Data model -/

/-- Enumeration `EventGeneratorConfiguration::Ensemble`. -/
inductive Ensemble where
  | GCE
  | CE
  | SCE
  | CCE
  deriving DecidableEq

/-- Enumeration `EventGeneratorConfiguration::ModelType`. -/
inductive ModelType where
  | PointParticle
  | DiagonalEV
  | CrosstermsEV
  | MeanFieldEV
  | QvdW
  deriving DecidableEq

/-- Modelled from the spec: the class `ThermalModelParameters` is declared in the
missing `HRGBase/ThermalModelBase.h`; the spec lists its content as temperature,
the four chemical potentials and the volume. -/
structure ThermalModelParameters (α : Type) where
  T : α
  muB : α
  muS : α
  muQ : α
  muC : α
  V : α

/-- Value object `struct EventGeneratorConfiguration`. -/
structure EventGeneratorConfiguration (α : Type) where
  fEnsemble : Ensemble
  fModelType : ModelType
  Parameters : ThermalModelParameters α
  T : α
  muB : α
  muS : α
  muQ : α
  muC : α
  gammaq : α
  gammaS : α
  gammaC : α
  R : α
  B : Int
  Q : Int
  S : Int
  C : Int

/-- Modelled from the spec: the particle class lives in the missing `HRGBase`
headers; a species carries its four quantum numbers, a mean ideal-gas density
and a stability flag. -/
structure Species (α : Type) where
  baryon : Int
  charge : Int
  strangeness : Int
  charm : Int
  density : α
  stable : Bool

/-- Modelled from the spec: the class `ThermalModelBase` is missing; the sampling
layer consumes from it the species list with mean densities and the total
system volume. -/
structure ThermalModelBase (α : Type) where
  particles : List (Species α)
  volume : α

/-- Data members of `class EventGeneratorBase` (the `protected` block).  The
containers of collaborator objects (`m_acc`, `m_MomentumGens`, `m_BWGens`) are
read by no operation embedded here and are left out; the pointer `m_THM` is an
`Option`, with `none` for `NULL`. -/
structure EventGeneratorBase (α : Type) where
  m_ekin : α
  m_ycm : α
  m_ssqrt : α
  m_elab : α
  m_OnlyStable : Bool
  m_Config : EventGeneratorConfiguration α
  m_THM : Option (ThermalModelBase α)
  m_DensitiesIdeal : List α
  m_Baryons : List (α × Nat)
  m_AntiBaryons : List (α × Nat)
  m_StrangeMesons : List (α × Nat)
  m_AntiStrangeMesons : List (α × Nat)
  m_ChargeMesons : List (α × Nat)
  m_AntiChargeMesons : List (α × Nat)
  m_CharmMesons : List (α × Nat)
  m_AntiCharmMesons : List (α × Nat)
  m_CharmAll : List (α × Nat)
  m_AntiCharmAll : List (α × Nat)
  m_BaryonsProbs : List α
  m_AntiBaryonsProbs : List α
  m_StrangeMesonsProbs : List α
  m_AntiStrangeMesonsProbs : List α
  m_ChargeMesonsProbs : List α
  m_AntiChargeMesonsProbs : List α
  m_CharmMesonsProbs : List α
  m_AntiCharmMesonsProbs : List α
  m_CharmAllProbs : List α
  m_AntiCharmAllProbs : List α
  m_MeanB : α
  m_MeanAB : α
  m_MeanSM : α
  m_MeanASM : α
  m_MeanCM : α
  m_MeanACM : α
  m_MeanCHRMM : α
  m_MeanACHRMM : α
  m_MeanCHRM : α
  m_MeanACHRM : α

/-- The `static` data members of `EventGeneratorBase`: the public acceptance
counters and the protected weight pair.  They are shared by all instances. -/
structure Statics (α : Type) where
  fCEAccepted : Int
  fCETotal : Int
  m_LastWeight : α
  m_LastLogWeight : α

/-- The program state seen by a member function: the process-wide statics and
the object the function is called on. -/
structure World (α : Type) where
  statics : Statics α
  self : EventGeneratorBase α

/-- The numeric collaborators of the inline setters: `xMath::mnucleon()` comes
from the missing `HRGBase/xMath.h`, `sqrt` and `log` from the C math library.
They are parameters of the embedding. -/
structure XMath (α : Type) where
  mnucleon : α
  sqrt : α → α
  log : α → α

/-! ## Operations defined inline in the header -/

section Inline

variable {α : Type}

/-- The constructor `EventGeneratorBase() { m_THM = NULL; fCEAccepted = fCETotal = 0; }`.
The argument `st` holds the statics before the call and `raw` the indeterminate
content of the scalar members, which the constructor does not initialise; the
vectors are default-constructed empty. -/
def EventGeneratorBase.construct (st : Statics α) (raw : EventGeneratorBase α) : World α :=
  { statics := { st with fCEAccepted := 0, fCETotal := 0 }
    self :=
      { raw with
        m_THM := none
        m_DensitiesIdeal := []
        m_Baryons := []
        m_AntiBaryons := []
        m_StrangeMesons := []
        m_AntiStrangeMesons := []
        m_ChargeMesons := []
        m_AntiChargeMesons := []
        m_CharmMesons := []
        m_AntiCharmMesons := []
        m_CharmAll := []
        m_AntiCharmAll := []
        m_BaryonsProbs := []
        m_AntiBaryonsProbs := []
        m_StrangeMesonsProbs := []
        m_AntiStrangeMesonsProbs := []
        m_ChargeMesonsProbs := []
        m_AntiChargeMesonsProbs := []
        m_CharmMesonsProbs := []
        m_AntiCharmMesonsProbs := []
        m_CharmAllProbs := []
        m_AntiCharmAllProbs := [] } }

/-- The setter `void SetCollisionCMSEnergy(double ssqrt_)`. -/
def SetCollisionCMSEnergy [Field α] (x : XMath α) (w : World α) (ssqrt_ : α) : World α :=
  let m_ssqrt := ssqrt_
  let m_ekin := m_ssqrt * m_ssqrt / 2 / x.mnucleon - 2 * x.mnucleon
  let m_elab := x.mnucleon + m_ekin
  let plab := x.sqrt ( m_elab * m_elab - x.mnucleon * x.mnucleon)
  let m_ycm := 0.5 * x.log (( m_elab + x.mnucleon + plab) / ( m_elab + x.mnucleon - plab))
  { w with
    self :=
      { w.self with
        m_ssqrt := m_ssqrt
        m_ekin := m_ekin
        m_elab := m_elab
        m_ycm := m_ycm } }

/-- The setter `void SetCollisionKineticEnergy(double ekin_)`. -/
def SetCollisionKineticEnergy [Field α] (x : XMath α) (w : World α) (ekin_ : α) : World α :=
  SetCollisionCMSEnergy x w (x.sqrt (2 * x.mnucleon * (ekin_ + 2 * x.mnucleon)))

/-- The setter `void SetCollisionLabEnergy(double elab_)`. -/
def SetCollisionLabEnergy [Field α] (x : XMath α) (w : World α) (elab_ : α) : World α :=
  SetCollisionCMSEnergy x w (x.sqrt (2 * x.mnucleon * (elab_ + x.mnucleon)))

/-- The accessor `double getYcm() const { return m_ycm; }`. -/
def getYcm (w : World α) : α :=
  w.self.m_ycm

end Inline

/-- A configuration with every number zero, used to build concrete states. -/
def EventGeneratorConfiguration.zero {α : Type} [Zero α] : EventGeneratorConfiguration α :=
  { fEnsemble := Ensemble.GCE
    fModelType := ModelType.PointParticle
    Parameters := { T := 0, muB := 0, muS := 0, muQ := 0, muC := 0, V := 0 }
    T := 0, muB := 0, muS := 0, muQ := 0, muC := 0
    gammaq := 0, gammaS := 0, gammaC := 0, R := 0
    B := 0, Q := 0, S := 0, C := 0 }

/-- An object with every scalar zero, no thermal model and empty containers. -/
def EventGeneratorBase.zero {α : Type} [Zero α] : EventGeneratorBase α :=
  { m_ekin := 0, m_ycm := 0, m_ssqrt := 0, m_elab := 0
    m_OnlyStable := false
    m_Config := EventGeneratorConfiguration.zero
    m_THM := none
    m_DensitiesIdeal := []
    m_Baryons := [], m_AntiBaryons := []
    m_StrangeMesons := [], m_AntiStrangeMesons := []
    m_ChargeMesons := [], m_AntiChargeMesons := []
    m_CharmMesons := [], m_AntiCharmMesons := []
    m_CharmAll := [], m_AntiCharmAll := []
    m_BaryonsProbs := [], m_AntiBaryonsProbs := []
    m_StrangeMesonsProbs := [], m_AntiStrangeMesonsProbs := []
    m_ChargeMesonsProbs := [], m_AntiChargeMesonsProbs := []
    m_CharmMesonsProbs := [], m_AntiCharmMesonsProbs := []
    m_CharmAllProbs := [], m_AntiCharmAllProbs := []
    m_MeanB := 0, m_MeanAB := 0, m_MeanSM := 0, m_MeanASM := 0
    m_MeanCM := 0, m_MeanACM := 0, m_MeanCHRMM := 0, m_MeanACHRMM := 0
    m_MeanCHRM := 0, m_MeanACHRM := 0 }

/-- A state whose acceptance counters hold the given values. -/
def World.withCounters {α : Type} [Zero α] (a t : Int) : World α :=
  { statics := { fCEAccepted := a, fCETotal := t, m_LastWeight := 0, m_LastLogWeight := 0 }
    self := EventGeneratorBase.zero }

/-! ## Grouping and multinomial tables -/

section Multinomials

variable {α : Type}

/-- Modelled from the spec: the body of `PrepareMultinomials` is missing; these are
the eight sign-and-type groups of §4.1 into which a species is classified (the two
aggregate charm groups are pooled separately, see `inCharmAll`). -/
inductive Group where
  | Baryons
  | AntiBaryons
  | StrangeMesons
  | AntiStrangeMesons
  | ChargeMesons
  | AntiChargeMesons
  | CharmMesons
  | AntiCharmMesons
  deriving DecidableEq

/-- Modelled from the spec: the classification rule of §4.1, missing with the body
of `PrepareMultinomials`.  Baryon number `> 0` gives the baryon group, `< 0` the
antibaryon group; a species of zero baryon number carrying strangeness goes to the
strange or anti-strange mesons, and analogously for charge and then charm.  The
rules are tried in the order the spec lists them and the first that applies
decides: §2 calls the groups mutually exclusive, §4.1 asks for one group per
species, and by §4.5 a strange baryon is a baryon-group member whose strangeness
is counted across groups.  A species with no charge at all is in no group. -/
def classify (p : Species α) : Option Group :=
  if 0 < p.baryon then some Group.Baryons
  else if p.baryon < 0 then some Group.AntiBaryons
  else if 0 < p.strangeness then some Group.StrangeMesons
  else if p.strangeness < 0 then some Group.AntiStrangeMesons
  else if 0 < p.charge then some Group.ChargeMesons
  else if p.charge < 0 then some Group.AntiChargeMesons
  else if 0 < p.charm then some Group.CharmMesons
  else if p.charm < 0 then some Group.AntiCharmMesons
  else none

/-- The membership test of one of the eight groups. -/
def inGroup (g : Group) (p : Species α) : Bool :=
  decide (classify p = some g)

/-- Modelled from the spec: the separate "aggregate charm" grouping of §4.1, which
pools every species of positive charm when charm is one conserved quantity. -/
def inCharmAll (p : Species α) : Bool :=
  decide (0 < p.charm)

/-- Modelled from the spec: the aggregate anticharm grouping, every species of
negative charm. -/
def inAntiCharmAll (p : Species α) : Bool :=
  decide (p.charm < 0)

/-- Modelled from the spec: the output of the grouping step for one group, the
list of `(meanDensity × volume, speciesIndex)` pairs of the species the test
selects, in species order; `i` is the index of the head of the list. -/
def collectFrom [Mul α] (sel : Species α → Bool) (volume : α) :
    Nat → List (Species α) → List (α × Nat)
  | _, [] => []
  | i, p :: ps =>
    if sel p then (p.density * volume, i) :: collectFrom sel volume (i + 1) ps
    else collectFrom sel volume (i + 1) ps

/-- Modelled from the spec: the numerical policy of §4.2, a negative contribution
is clamped to zero (exact arithmetic has no NaN). -/
def contribution [LinearOrderedField α] (weight : α) : α :=
  max 0 weight

/-- Modelled from the spec: the group total of §4.2, the sum of the per-species
mean contributions. -/
def groupMean [LinearOrderedField α] (pairs : List (α × Nat)) : α :=
  (pairs.map (fun q => contribution q.1)).sum

/-- Modelled from the spec: the probability vector of §4.2, each entry the species
contribution divided by the group total; when the total is zero the table is
left empty and nothing is divided. -/
def groupProbs [LinearOrderedField α] (pairs : List (α × Nat)) : List α :=
  if groupMean pairs = 0 then []
  else pairs.map (fun q => contribution q.1 / groupMean pairs)

/-- Modelled from the spec: the body of `void PrepareMultinomials()` is missing
(it is defined outside the header).  Following §4.1 and §4.2 it fills, from the
species list and volume of the thermal model, the ten group lists, their total
mean counts and their probability vectors.  With no thermal model set (`m_THM`
is `NULL`) there is nothing to read and the call does not succeed. -/
def PrepareMultinomials [LinearOrderedField α] (g : EventGeneratorBase α) :
    Option (EventGeneratorBase α) :=
  match g.m_THM with
  | none => none
  | some thm =>
    let grp := fun sel => collectFrom sel thm.volume 0 thm.particles
    some
      { g with
        m_Baryons := grp (inGroup Group.Baryons)
        m_AntiBaryons := grp (inGroup Group.AntiBaryons)
        m_StrangeMesons := grp (inGroup Group.StrangeMesons)
        m_AntiStrangeMesons := grp (inGroup Group.AntiStrangeMesons)
        m_ChargeMesons := grp (inGroup Group.ChargeMesons)
        m_AntiChargeMesons := grp (inGroup Group.AntiChargeMesons)
        m_CharmMesons := grp (inGroup Group.CharmMesons)
        m_AntiCharmMesons := grp (inGroup Group.AntiCharmMesons)
        m_CharmAll := grp inCharmAll
        m_AntiCharmAll := grp inAntiCharmAll
        m_BaryonsProbs := groupProbs (grp (inGroup Group.Baryons))
        m_AntiBaryonsProbs := groupProbs (grp (inGroup Group.AntiBaryons))
        m_StrangeMesonsProbs := groupProbs (grp (inGroup Group.StrangeMesons))
        m_AntiStrangeMesonsProbs := groupProbs (grp (inGroup Group.AntiStrangeMesons))
        m_ChargeMesonsProbs := groupProbs (grp (inGroup Group.ChargeMesons))
        m_AntiChargeMesonsProbs := groupProbs (grp (inGroup Group.AntiChargeMesons))
        m_CharmMesonsProbs := groupProbs (grp (inGroup Group.CharmMesons))
        m_AntiCharmMesonsProbs := groupProbs (grp (inGroup Group.AntiCharmMesons))
        m_CharmAllProbs := groupProbs (grp inCharmAll)
        m_AntiCharmAllProbs := groupProbs (grp inAntiCharmAll)
        m_MeanB := groupMean (grp (inGroup Group.Baryons))
        m_MeanAB := groupMean (grp (inGroup Group.AntiBaryons))
        m_MeanSM := groupMean (grp (inGroup Group.StrangeMesons))
        m_MeanASM := groupMean (grp (inGroup Group.AntiStrangeMesons))
        m_MeanCM := groupMean (grp (inGroup Group.ChargeMesons))
        m_MeanACM := groupMean (grp (inGroup Group.AntiChargeMesons))
        m_MeanCHRMM := groupMean (grp (inGroup Group.CharmMesons))
        m_MeanACHRMM := groupMean (grp (inGroup Group.AntiCharmMesons))
        m_MeanCHRM := groupMean (grp inCharmAll)
        m_MeanACHRM := groupMean (grp inAntiCharmAll) }

/-- One group as the object stores it: the `(weight, index)` list, the probability
vector and the total mean count. -/
structure GroupTable (α : Type) where
  pairs : List (α × Nat)
  probs : List α
  mean : α

/-- The ten groups of an object, in declaration order. -/
def EventGeneratorBase.tables (g : EventGeneratorBase α) : List (GroupTable α) :=
  [ ⟨g.m_Baryons, g.m_BaryonsProbs, g.m_MeanB⟩,
    ⟨g.m_AntiBaryons, g.m_AntiBaryonsProbs, g.m_MeanAB⟩,
    ⟨g.m_StrangeMesons, g.m_StrangeMesonsProbs, g.m_MeanSM⟩,
    ⟨g.m_AntiStrangeMesons, g.m_AntiStrangeMesonsProbs, g.m_MeanASM⟩,
    ⟨g.m_ChargeMesons, g.m_ChargeMesonsProbs, g.m_MeanCM⟩,
    ⟨g.m_AntiChargeMesons, g.m_AntiChargeMesonsProbs, g.m_MeanACM⟩,
    ⟨g.m_CharmMesons, g.m_CharmMesonsProbs, g.m_MeanCHRMM⟩,
    ⟨g.m_AntiCharmMesons, g.m_AntiCharmMesonsProbs, g.m_MeanACHRMM⟩,
    ⟨g.m_CharmAll, g.m_CharmAllProbs, g.m_MeanCHRM⟩,
    ⟨g.m_AntiCharmAll, g.m_AntiCharmAllProbs, g.m_MeanACHRM⟩ ]

/-- A thermal model over the rationals with a proton, a neutron, an antiproton, a
kaon, a neutral pion and a neutral charm meson, in volume `2`. -/
def sampleModel : ThermalModelBase ℚ :=
  { particles :=
      [ { baryon := 1, charge := 1, strangeness := 0, charm := 0, density := 1, stable := true },
        { baryon := 1, charge := 0, strangeness := 0, charm := 0, density := 3, stable := true },
        { baryon := -1, charge := -1, strangeness := 0, charm := 0, density := 3, stable := true },
        { baryon := 0, charge := 1, strangeness := 1, charm := 0, density := 2, stable := true },
        { baryon := 0, charge := 0, strangeness := 0, charm := 0, density := 5, stable := true },
        { baryon := 0, charge := 0, strangeness := 0, charm := 1, density := 1, stable := false } ]
    volume := 2 }

/-- An object holding `sampleModel`, before its groups are built. -/
def sampleGenerator : EventGeneratorBase ℚ :=
  { (EventGeneratorBase.zero : EventGeneratorBase ℚ) with m_THM := some sampleModel }

end Multinomials

/-! ## Grand-canonical sampling and the dispatcher -/

section Sampling

variable {α : Type}

/-- Modelled from the spec: the injected random-number source of §5 (the header
`HRGEventGenerator/RandomGenerators.h` is missing).  The field `poisson k mean` is
the outcome of the `k`-th draw of the run when it is a Poisson draw of the given
mean; a Poisson variate is a count. -/
structure RandomGenerators (α : Type) where
  poisson : Nat → α → Nat

/-- The outcome of one sampling call: the returned `std::vector<int>`, the statics
after the call and the number of random draws consumed so far.  The sampling
member functions are `const`, so the object itself is unchanged. -/
structure Sampled (α : Type) where
  totals : List Int
  statics : Statics α
  draws : Nat

/-- Modelled from the spec: §4.3, each species' multiplicity is an independent
Poisson draw with mean `density × volume`; draw `k` serves the head of the list. -/
def poissonTotals [Mul α] (rng : RandomGenerators α) (volume : α) :
    Nat → List (Species α) → List Int
  | _, [] => []
  | k, p :: ps =>
    (rng.poisson k (p.density * volume) : Int) :: poissonTotals rng volume (k + 1) ps

/-- Modelled from the spec: the body of `std::vector<int> GenerateTotalsGCE() const`
is missing.  Following §4.3 and §4.7 it draws every species independently, with
no rejection, and overwrites the weight state with weight `1` and log-weight `0`;
the acceptance counters are not touched.  With `m_THM` equal to `NULL` there is no
species list to read and the call yields nothing. -/
def GenerateTotalsGCE [Field α] (rng : RandomGenerators α) (k : Nat) (w : World α) :
    Option (Sampled α) :=
  match w.self.m_THM with
  | none => none
  | some thm =>
    some
      { totals := poissonTotals rng thm.volume k thm.particles
        statics := { w.statics with m_LastWeight := 1, m_LastLogWeight := 0 }
        draws := k + thm.particles.length }

/-- The canonical samplers `GenerateTotalsCE`, `GenerateTotalsSCE` and
`GenerateTotalsCCE`: their bodies are missing and the spec leaves their
acceptance procedure open (§9), so the dispatcher takes them as parameters.  Each
maps the draw counter and the state to its outcome, if it returns. -/
structure CanonicalSamplers (α : Type) where
  GenerateTotalsCE : Nat → World α → Option (Sampled α)
  GenerateTotalsSCE : Nat → World α → Option (Sampled α)
  GenerateTotalsCCE : Nat → World α → Option (Sampled α)

/-- Modelled from the spec: the body of `std::vector<int> GenerateTotals() const` is
missing; by §6 it is the one "generate totals" operation, dispatched by the
ensemble of the configuration to the sampler of that ensemble. -/
def GenerateTotals [Field α] (rng : RandomGenerators α) (cs : CanonicalSamplers α)
    (k : Nat) (w : World α) : Option (Sampled α) :=
  match w.self.m_Config.fEnsemble with
  | Ensemble.GCE => GenerateTotalsGCE rng k w
  | Ensemble.CE => cs.GenerateTotalsCE k w
  | Ensemble.SCE => cs.GenerateTotalsSCE k w
  | Ensemble.CCE => cs.GenerateTotalsCCE k w

/-- A random source whose `k`-th Poisson draw is `k`, whatever the mean. -/
def countingSource : RandomGenerators ℚ :=
  { poisson := fun k _ => k }

/-- Canonical samplers that never return, for states configured as GCE. -/
def idleSamplers : CanonicalSamplers ℚ :=
  { GenerateTotalsCE := fun _ _ => none
    GenerateTotalsSCE := fun _ _ => none
    GenerateTotalsCCE := fun _ _ => none }

/-- A state configured as GCE that holds `sampleModel`, with the weight pair
`(7, 3)` left by an earlier call. -/
def sampleWorld : World ℚ :=
  { statics := { fCEAccepted := 0, fCETotal := 0, m_LastWeight := 7, m_LastLogWeight := 3 }
    self := sampleGenerator }

end Sampling

/-! ## The energy setters in exact real arithmetic -/

section Energy

/-- C8: with nucleon mass `m > 0` and `ekin + 2m ≥ 0`, after
`SetCollisionKineticEnergy(ekin)` the object stores `m_ekin = ekin`,
`m_elab = ekin + m` and `m_ssqrt = sqrt(2m(ekin + 2m))`. -/
theorem SetCollisionKineticEnergy_roundtrip (w : World ℝ) (m ekin : ℝ)
    (hm : 0 < m) (h : 0 ≤ ekin + 2 * m) :
    (SetCollisionKineticEnergy ⟨m, Real.sqrt, Real.log⟩ w ekin).self.m_ekin = ekin ∧
    EventGeneratorBase.m_elab (SetCollisionKineticEnergy ⟨m, Real.sqrt, Real.log⟩ w ekin).self
      = ekin + m ∧
    (SetCollisionKineticEnergy ⟨m, Real.sqrt, Real.log⟩ w ekin).self.m_ssqrt
      = Real.sqrt (2 * m * (ekin + 2 * m)) := by
  have hx : 0 ≤ 2 * m * (ekin + 2 * m) := by positivity
  have hs := Real.mul_self_sqrt hx
  have hm0 : m ≠ 0 := hm.ne.symm
  simp only [SetCollisionKineticEnergy, SetCollisionCMSEnergy]
  refine ⟨?_, ?_, trivial⟩
  · rw [hs]; field_simp
  · rw [hs]; field_simp; ring

/-- Witness of C8 at nucleon mass 1 and kinetic energy 0. -/
theorem SetCollisionKineticEnergy_roundtrip_witness :
    (SetCollisionKineticEnergy ⟨1, Real.sqrt, Real.log⟩ (World.withCounters 0 0) 0).self.m_ekin
        = (0 : ℝ) ∧
    EventGeneratorBase.m_elab
        (SetCollisionKineticEnergy ⟨1, Real.sqrt, Real.log⟩ (World.withCounters 0 0) 0).self
        = (0 : ℝ) + 1 ∧
    (SetCollisionKineticEnergy ⟨1, Real.sqrt, Real.log⟩ (World.withCounters 0 0) 0).self.m_ssqrt
        = Real.sqrt (2 * 1 * (0 + 2 * 1)) :=
  SetCollisionKineticEnergy_roundtrip (World.withCounters 0 0) 1 0 (by norm_num) (by norm_num)

/-- C9: with nucleon mass `m > 0` and `e + m ≥ 0`, after `SetCollisionLabEnergy(e)`
the object stores `m_elab = e` and `m_ekin = e - m`; and after each of the three
energy setters, for every argument (and whatever `sqrt` and `log` return),
`m_elab = m_ekin + m`. -/
theorem SetCollisionLabEnergy_roundtrip (w : World ℝ) (m e : ℝ)
    (hm : 0 < m) (h : 0 ≤ e + m) :
    ( EventGeneratorBase.m_elab (SetCollisionLabEnergy ⟨m, Real.sqrt, Real.log⟩ w e).self = e ∧
     (SetCollisionLabEnergy ⟨m, Real.sqrt, Real.log⟩ w e).self.m_ekin = e - m) ∧
    (∀ (sq lg : ℝ → ℝ) (x : ℝ),
      EventGeneratorBase.m_elab (SetCollisionCMSEnergy ⟨m, sq, lg⟩ w x).self
        = (SetCollisionCMSEnergy ⟨m, sq, lg⟩ w x).self.m_ekin + m ∧
      EventGeneratorBase.m_elab (SetCollisionKineticEnergy ⟨m, sq, lg⟩ w x).self
        = (SetCollisionKineticEnergy ⟨m, sq, lg⟩ w x).self.m_ekin + m ∧
      EventGeneratorBase.m_elab (SetCollisionLabEnergy ⟨m, sq, lg⟩ w x).self
        = (SetCollisionLabEnergy ⟨m, sq, lg⟩ w x).self.m_ekin + m) := by
  have hx : 0 ≤ 2 * m * (e + m) := by positivity
  have hs := Real.mul_self_sqrt hx
  have hm0 : m ≠ 0 := hm.ne.symm
  simp only [SetCollisionLabEnergy, SetCollisionKineticEnergy, SetCollisionCMSEnergy]
  refine ⟨⟨?_, ?_⟩, fun sq lg x => ⟨add_comm _ _, add_comm _ _, add_comm _ _⟩⟩
  · rw [hs]; field_simp; ring
  · rw [hs]; field_simp; ring

/-- Witness of C9 at nucleon mass 1 and lab energy 1 (a projectile at rest). -/
theorem SetCollisionLabEnergy_roundtrip_witness :
    ( EventGeneratorBase.m_elab
        (SetCollisionLabEnergy ⟨1, Real.sqrt, Real.log⟩ (World.withCounters 0 0) 1).self
        = (1 : ℝ) ∧
     (SetCollisionLabEnergy ⟨1, Real.sqrt, Real.log⟩ (World.withCounters 0 0) 1).self.m_ekin
        = (1 : ℝ) - 1) ∧
    (∀ (sq lg : ℝ → ℝ) (x : ℝ),
      EventGeneratorBase.m_elab
        (SetCollisionCMSEnergy ⟨1, sq, lg⟩ (World.withCounters 0 0) x).self
        = (SetCollisionCMSEnergy ⟨1, sq, lg⟩ (World.withCounters 0 0) x).self.m_ekin + 1 ∧
      EventGeneratorBase.m_elab
        (SetCollisionKineticEnergy ⟨1, sq, lg⟩ (World.withCounters 0 0) x).self
        = (SetCollisionKineticEnergy ⟨1, sq, lg⟩ (World.withCounters 0 0) x).self.m_ekin + 1 ∧
      EventGeneratorBase.m_elab
        (SetCollisionLabEnergy ⟨1, sq, lg⟩ (World.withCounters 0 0) x).self
        = (SetCollisionLabEnergy ⟨1, sq, lg⟩ (World.withCounters 0 0) x).self.m_ekin + 1) :=
  SetCollisionLabEnergy_roundtrip (World.withCounters 0 0) 1 1 (by norm_num) (by norm_num)

/-- C10: with nucleon mass `m > 0` and `ssqrt² ≥ 4m²`, after
`SetCollisionCMSEnergy(ssqrt)` the lab energy is `E = ssqrt²/(2m) - m`, and with
`p = sqrt(E² - m²)` the value of `getYcm()` is the stored
`0.5 ln((E + m + p)/(E + m - p))`, it is non-negative, twice it equals the beam
rapidity `0.5 ln((E + p)/(E - p))`, the denominator `E + m - p` is strictly
positive, and at the threshold `ssqrt = 2m` the value is `0`. -/
theorem getYcm_after_SetCollisionCMSEnergy (w : World ℝ) (m ssqrt E p : ℝ)
    (hm : 0 < m) (hs : 4 * m ^ 2 ≤ ssqrt ^ 2)
    (hE : E = ssqrt ^ 2 / (2 * m) - m) (hp : p = Real.sqrt (E ^ 2 - m ^ 2)) :
    EventGeneratorBase.m_elab (SetCollisionCMSEnergy ⟨m, Real.sqrt, Real.log⟩ w ssqrt).self = E ∧
    getYcm (SetCollisionCMSEnergy ⟨m, Real.sqrt, Real.log⟩ w ssqrt)
      = 0.5 * Real.log ((E + m + p) / (E + m - p)) ∧
    0 ≤ getYcm (SetCollisionCMSEnergy ⟨m, Real.sqrt, Real.log⟩ w ssqrt) ∧
    2 * getYcm (SetCollisionCMSEnergy ⟨m, Real.sqrt, Real.log⟩ w ssqrt)
      = 0.5 * Real.log ((E + p) / (E - p)) ∧
    0 < E + m - p ∧
    getYcm (SetCollisionCMSEnergy ⟨m, Real.sqrt, Real.log⟩ w (2 * m)) = 0 := by
  have hm0 : m ≠ 0 := hm.ne.symm
  have hEm : m ≤ E := by
    rw [hE, le_sub_iff_add_le, le_div_iff₀ (by positivity)]
    nlinarith
  have hlab : m + (ssqrt * ssqrt / 2 / m - 2 * m) = E := by
    rw [hE]; field_simp; ring
  have hsq : E * E - m * m = E ^ 2 - m ^ 2 := by ring
  have hrad : 0 ≤ E ^ 2 - m ^ 2 := by nlinarith
  have hp0 : 0 ≤ p := by rw [hp]; exact Real.sqrt_nonneg _
  have hp2 : p ^ 2 = E ^ 2 - m ^ 2 := by rw [hp]; exact Real.sq_sqrt hrad
  have hpE : p < E := by
    by_contra hcon
    push_neg at hcon
    nlinarith
  have hden : 0 < E + m - p := by linarith
  have hnum : 0 < E + m + p := by linarith
  have hratio : 1 ≤ (E + m + p) / (E + m - p) := by
    rw [le_div_iff₀ hden]; linarith
  have hlog : 0 ≤ Real.log ((E + m + p) / (E + m - p)) := Real.log_nonneg hratio
  have hsquare : ((E + m + p) / (E + m - p)) ^ 2 = (E + p) / (E - p) := by
    rw [div_pow, div_eq_div_iff (pow_ne_zero 2 hden.ne.symm) (sub_pos.mpr hpE).ne.symm]
    linear_combination (-2 * p) * hp2
  have hthr : m + (2 * m * (2 * m) / 2 / m - 2 * m) = m := by
    field_simp
  simp only [SetCollisionCMSEnergy, getYcm]
  rw [hlab, hsq, ← hp, hthr]
  refine ⟨rfl, rfl, ?_, ?_, hden, ?_⟩
  · norm_num at hlog ⊢; exact hlog
  · rw [← hsquare, Real.log_pow]; norm_num; ring
  · have hmm : m + m ≠ 0 := by positivity
    simp [sub_self, div_self hmm]

/-- Witness of C10 at nucleon mass 1 and the threshold energy `ssqrt = 2`. -/
theorem getYcm_after_SetCollisionCMSEnergy_witness :
    EventGeneratorBase.m_elab
        (SetCollisionCMSEnergy ⟨1, Real.sqrt, Real.log⟩ (World.withCounters 0 0) 2).self
        = (1 : ℝ) ∧
    getYcm (SetCollisionCMSEnergy ⟨1, Real.sqrt, Real.log⟩ (World.withCounters 0 0) 2)
      = 0.5 * Real.log (((1 : ℝ) + 1 + Real.sqrt (1 ^ 2 - 1 ^ 2))
          / (1 + 1 - Real.sqrt (1 ^ 2 - 1 ^ 2))) ∧
    0 ≤ getYcm (SetCollisionCMSEnergy ⟨1, Real.sqrt, Real.log⟩ (World.withCounters 0 0) 2) ∧
    2 * getYcm (SetCollisionCMSEnergy ⟨1, Real.sqrt, Real.log⟩ (World.withCounters 0 0) 2)
      = 0.5 * Real.log (((1 : ℝ) + Real.sqrt (1 ^ 2 - 1 ^ 2))
          / (1 - Real.sqrt (1 ^ 2 - 1 ^ 2))) ∧
    0 < (1 : ℝ) + 1 - Real.sqrt (1 ^ 2 - 1 ^ 2) ∧
    getYcm (SetCollisionCMSEnergy ⟨1, Real.sqrt, Real.log⟩ (World.withCounters 0 0) (2 * 1))
      = 0 :=
  getYcm_after_SetCollisionCMSEnergy (World.withCounters 0 0) 1 2 1
    (Real.sqrt (1 ^ 2 - 1 ^ 2)) (by norm_num) (by norm_num) (by norm_num) rfl

end Energy

/-! ## The acceptance counters -/

section Counters

/-- C2, counterexample: with the counters at `(3, 5)` before the call, constructing
a new `EventGeneratorBase` leaves them at `(0, 0)`, not at `(3, 5)`. -/
theorem construct_keeps_counters_counterexample :
    ¬ ((EventGeneratorBase.construct (World.withCounters 3 5 : World ℚ).statics
          EventGeneratorBase.zero).statics.fCEAccepted = 3 ∧
       (EventGeneratorBase.construct (World.withCounters 3 5 : World ℚ).statics
          EventGeneratorBase.zero).statics.fCETotal = 5) := by
  simp [EventGeneratorBase.construct, World.withCounters]

/-- C2, amended: the constructor sets both acceptance counters to `0` whatever
they held before (and leaves the weight pair alone), while each of the three
inline energy setters leaves all the statics, the two counters included,
unchanged. -/
theorem counters_construct_reset_setters_frame {α : Type} [Field α]
    (st : Statics α) (raw : EventGeneratorBase α) (x : XMath α) (w : World α) (v : α) :
    ((EventGeneratorBase.construct st raw).statics.fCEAccepted = 0 ∧
     (EventGeneratorBase.construct st raw).statics.fCETotal = 0 ∧
     (EventGeneratorBase.construct st raw).statics.m_LastWeight = st.m_LastWeight ∧
     (EventGeneratorBase.construct st raw).statics.m_LastLogWeight = st.m_LastLogWeight) ∧
    (SetCollisionCMSEnergy x w v).statics = w.statics ∧
    (SetCollisionKineticEnergy x w v).statics = w.statics ∧
    (SetCollisionLabEnergy x w v).statics = w.statics :=
  ⟨⟨rfl, rfl, rfl, rfl⟩, rfl, rfl, rfl⟩

end Counters

/-! ## Multinomial tables: normalisation -/

section TableProofs

variable {α : Type} [LinearOrderedField α]

/-- A clamped contribution is non-negative. -/
theorem contribution_nonneg (weight : α) : 0 ≤ contribution weight :=
  le_max_left 0 weight

/-- A group total is non-negative. -/
theorem groupMean_nonneg (pairs : List (α × Nat)) : 0 ≤ groupMean pairs := by
  unfold groupMean
  apply List.sum_nonneg
  intro x hx
  obtain ⟨q, _, rfl⟩ := List.mem_map.mp hx
  exact contribution_nonneg q.1

/-- Dividing every term of a sum by `m` divides the sum by `m`. -/
theorem sum_map_div (f : α × Nat → α) (m : α) (pairs : List (α × Nat)) :
    (pairs.map (fun q => f q / m)).sum = (pairs.map f).sum / m := by
  induction pairs with
  | nil => simp
  | cons q qs ih => simp only [List.map_cons, List.sum_cons, ih, add_div]

/-- The table of one group: normalised when the total is non-zero, empty when it
is zero. -/
theorem groupProbs_spec (pairs : List (α × Nat)) :
    (groupMean pairs ≠ 0 →
      (∀ x ∈ groupProbs pairs, 0 ≤ x) ∧ (groupProbs pairs).sum = 1 ∧
      groupProbs pairs = pairs.map (fun q => max 0 q.1 / groupMean pairs) ∧
      ((∀ q ∈ pairs, 0 ≤ q.1) →
        groupProbs pairs = pairs.map (fun q => q.1 / groupMean pairs))) ∧
    (groupMean pairs = 0 → groupProbs pairs = []) := by
  constructor
  · intro hne
    have hp : groupProbs pairs = pairs.map (fun q => contribution q.1 / groupMean pairs) := by
      unfold groupProbs; rw [if_neg hne]
    refine ⟨?_, ?_, hp, ?_⟩
    · intro x hx
      rw [hp] at hx
      obtain ⟨q, _, rfl⟩ := List.mem_map.mp hx
      exact div_nonneg (contribution_nonneg q.1) (groupMean_nonneg pairs)
    · rw [hp, sum_map_div]
      exact div_self hne
    · intro hpos
      rw [hp]
      apply List.map_congr_left
      intro q hq
      unfold contribution
      rw [max_eq_right (hpos q hq)]
  · intro h0
    unfold groupProbs; rw [if_pos h0]

/-- C5: with a thermal model set, `PrepareMultinomials` succeeds and, for each of
the ten groups, the stored mean is the sum of the species' contributions (the
weights clamped at zero); when that mean is non-zero every entry of the
probability vector is non-negative, the entries sum to `1`, and each entry is the
species' contribution divided by the mean (the weight itself divided by the mean
when no weight of the group is negative); when the mean is zero the vector is
empty, so that nothing is divided by the total. -/
theorem PrepareMultinomials_tables_normalized
    (g : EventGeneratorBase α) (thm : ThermalModelBase α) (h : g.m_THM = some thm) :
    ∃ g', PrepareMultinomials g = some g' ∧ ∀ t ∈ g'.tables,
      t.mean = (t.pairs.map (fun q => max 0 q.1)).sum ∧
      (t.mean ≠ 0 →
        (∀ x ∈ t.probs, 0 ≤ x) ∧ t.probs.sum = 1 ∧
        t.probs = t.pairs.map (fun q => max 0 q.1 / t.mean) ∧
        ((∀ q ∈ t.pairs, 0 ≤ q.1) → t.probs = t.pairs.map (fun q => q.1 / t.mean))) ∧
      (t.mean = 0 → t.probs = []) := by
  unfold PrepareMultinomials
  rw [h]
  refine ⟨_, rfl, ?_⟩
  intro t ht
  simp only [EventGeneratorBase.tables, List.mem_cons, List.mem_singleton,
    List.not_mem_nil, or_false] at ht
  rcases ht with rfl | rfl | rfl | rfl | rfl | rfl | rfl | rfl | rfl | rfl <;>
    exact ⟨rfl, groupProbs_spec _⟩

/-- Witness of C5 on `sampleGenerator`: its baryon group holds the weights `2` and
`6`, with mean `8` and probabilities `1/4` and `3/4`, and the property holds of
all ten groups. -/
theorem PrepareMultinomials_tables_normalized_witness :
    sampleGenerator.m_THM = some sampleModel ∧
    (PrepareMultinomials sampleGenerator).map
        (fun g => (g.m_Baryons, g.m_BaryonsProbs, g.m_MeanB))
      = some ([(2, 0), (6, 1)], [1 / 4, 3 / 4], 8) ∧
    ∃ g', PrepareMultinomials sampleGenerator = some g' ∧ ∀ t ∈ g'.tables,
      t.mean = (t.pairs.map (fun q => max 0 q.1)).sum ∧
      (t.mean ≠ 0 →
        (∀ x ∈ t.probs, 0 ≤ x) ∧ t.probs.sum = 1 ∧
        t.probs = t.pairs.map (fun q => max 0 q.1 / t.mean) ∧
        ((∀ q ∈ t.pairs, 0 ≤ q.1) → t.probs = t.pairs.map (fun q => q.1 / t.mean))) ∧
      (t.mean = 0 → t.probs = []) := by
  refine ⟨rfl, ?_, PrepareMultinomials_tables_normalized sampleGenerator sampleModel rfl⟩
  simp [PrepareMultinomials, sampleGenerator, sampleModel, collectFrom, inGroup, classify,
    groupProbs, groupMean, contribution]
  norm_num

end TableProofs

/-! ## Grand-canonical weight -/

section WeightProofs

/-- C6: with a thermal model set, a call of `GenerateTotalsGCE` returns and leaves
`m_LastWeight = 1` and `m_LastLogWeight = 0`, whatever the weight pair was before;
so does a call of `GenerateTotals` when the configured ensemble is GCE. -/
theorem GenerateTotalsGCE_weight {α : Type} [Field α] (rng : RandomGenerators α)
    (cs : CanonicalSamplers α) (k : Nat) (w : World α) (thm : ThermalModelBase α)
    (h : w.self.m_THM = some thm) :
    (∃ r, GenerateTotalsGCE rng k w = some r ∧
      r.statics.m_LastWeight = 1 ∧ r.statics.m_LastLogWeight = 0) ∧
    (w.self.m_Config.fEnsemble = Ensemble.GCE →
      ∃ r, GenerateTotals rng cs k w = some r ∧
        r.statics.m_LastWeight = 1 ∧ r.statics.m_LastLogWeight = 0) := by
  have hg : ∃ r, GenerateTotalsGCE rng k w = some r ∧
      r.statics.m_LastWeight = 1 ∧ r.statics.m_LastLogWeight = 0 := by
    unfold GenerateTotalsGCE
    rw [h]
    exact ⟨_, rfl, rfl, rfl⟩
  refine ⟨hg, fun he => ?_⟩
  unfold GenerateTotals
  rw [he]
  exact hg

/-- Witness of C6 on `sampleWorld`, whose weight pair is `(7, 3)` before the call:
the call returns the six draws and the weight pair `(1, 0)`. -/
theorem GenerateTotalsGCE_weight_witness :
    (sampleWorld.self.m_THM = some sampleModel ∧
      sampleWorld.self.m_Config.fEnsemble = Ensemble.GCE ∧
      sampleWorld.statics.m_LastWeight = 7 ∧ sampleWorld.statics.m_LastLogWeight = 3) ∧
    GenerateTotalsGCE countingSource 0 sampleWorld
      = some ⟨[0, 1, 2, 3, 4, 5], ⟨0, 0, 1, 0⟩, 6⟩ ∧
    (∃ r, GenerateTotalsGCE countingSource 0 sampleWorld = some r ∧
      r.statics.m_LastWeight = 1 ∧ r.statics.m_LastLogWeight = 0) ∧
    (∃ r, GenerateTotals countingSource idleSamplers 0 sampleWorld = some r ∧
      r.statics.m_LastWeight = 1 ∧ r.statics.m_LastLogWeight = 0) :=
  ⟨⟨rfl, rfl, rfl, rfl⟩, rfl,
    (GenerateTotalsGCE_weight countingSource idleSamplers 0 sampleWorld sampleModel rfl).1,
    (GenerateTotalsGCE_weight countingSource idleSamplers 0 sampleWorld sampleModel rfl).2 rfl⟩

end WeightProofs

end thermalfist
